import Mathlib

/-!
Shallow embedding of `src/main.py` (an air-quality Twitter bot) and proofs
about its components: the fetcher `get_aqi_openweather`, the classifier
`get_aqi_category`, the advisory generator `get_caring_message_from_gemini`,
the composer / publisher `post_tweet`, the per-location driver `update_aqi`,
the config loader `load_location_config`, and the `__main__` orchestration.

External effects (HTTP calls, the generative-text provider, the two Twitter
publish interfaces, the clock, the process environment, the parsed config
file) are modelled as explicit parameters: an `Except Unit α` records whether
the call raised (Python exception) or returned a value.  Python floats are
modelled as rationals `ℚ`; Python's `int()` conversion is truncation toward
zero, modelled by `truncQ`.
-/

namespace AQIBot

/-- Python `int(q)` on a float/rational: truncation toward zero. -/
def truncQ (q : ℚ) : ℤ := if 0 ≤ q then ⌊q⌋ else ⌈q⌉

/-- The normalized reading produced by `get_aqi_openweather` on success
(the dict `{'aqi_index': ..., 'pm25': ..., 'pm10': ...}`). -/
structure Reading where
  aqi_index : ℤ
  pm25 : ℚ
  pm10 : ℚ
  deriving Repr, DecidableEq

/-- The dict returned by `get_aqi_category`:
`{'category': ..., 'emoji': ..., 'epa_aqi': ...}`. -/
structure AqiInfo where
  category : String
  emoji : String
  epa_aqi : ℤ
  deriving Repr, DecidableEq

/-- Embedding of `AQIBot.get_aqi_category` (src/main.py lines 76-106):
converts the OpenWeatherMap ordinal index (1-5) plus the PM2.5 value to a
category label, emoji and approximate US-EPA AQI.  The `else` branch of the
Python `if/elif` chain catches index 5 and every other value. -/
def get_aqi_category (aqi_index : ℤ) (pm25 : ℚ) : AqiInfo :=
  if aqi_index = 1 then
    { category := "Good", emoji := "🟢",
      epa_aqi := min (truncQ (pm25 * 4.8)) 50 }
  else if aqi_index = 2 then
    { category := "Fair", emoji := "🟢",
      epa_aqi := min (50 + truncQ ((pm25 - 10) * 4.8)) 100 }
  else if aqi_index = 3 then
    { category := "Moderate", emoji := "🟡",
      epa_aqi := min (100 + truncQ ((pm25 - 25) * 1.8)) 150 }
  else if aqi_index = 4 then
    { category := "Poor", emoji := "🟠",
      epa_aqi := min (150 + truncQ ((pm25 - 50) * 1.8)) 200 }
  else
    { category := "Very Poor", emoji := "🔴",
      epa_aqi := min (200 + truncQ ((pm25 - 75) * 2.8)) 300 }

/-- The green glyph of the spec's table. -/
def glyphGreen : String := "🟢"

/-- The yellow glyph of the spec's table. -/
def glyphYellow : String := "🟡"

/-- The orange glyph of the spec's table. -/
def glyphOrange : String := "🟠"

/-- The red glyph of the spec's table. -/
def glyphRed : String := "🔴"

/-- The classifier table transcribed from the SPEC's words (claim C1):
index 1 -> Good/green/`round(p*4.8)` capped at 50, index 2 ->
Fair/green/`50+round((p-10)*4.8)` capped at 100, index 3 ->
Moderate/yellow/`100+round((p-25)*1.8)` capped at 150, index 4 ->
Poor/orange/`150+round((p-50)*1.8)` capped at 200, index 5 or any other
value -> Very Poor/red/`200+round((p-75)*2.8)` capped at 300, where the
rounding is truncation toward zero and "capped at c" means `min · c`. -/
def specClassifierTable (index : ℤ) (p : ℚ) : AqiInfo :=
  if index = 1 then
    ⟨"Good", glyphGreen, min (truncQ (p * 4.8)) 50⟩
  else if index = 2 then
    ⟨"Fair", glyphGreen, min (50 + truncQ ((p - 10) * 4.8)) 100⟩
  else if index = 3 then
    ⟨"Moderate", glyphYellow, min (100 + truncQ ((p - 25) * 1.8)) 150⟩
  else if index = 4 then
    ⟨"Poor", glyphOrange, min (150 + truncQ ((p - 50) * 1.8)) 200⟩
  else
    ⟨"Very Poor", glyphRed, min (200 + truncQ ((p - 75) * 2.8)) 300⟩

/-- The hardcoded fallback string of `get_caring_message_from_gemini`
(src/main.py line 132). -/
def geminiFallback : String :=
  "Stay safe and take appropriate precautions for today's air quality."

/-- Embedding of `AQIBot.get_caring_message_from_gemini` (src/main.py lines
108-132).  The generative-text call is external; its outcome is the
parameter `provider`: `.error ()` when `generate_content` raises,
`.ok none` when the response lacks the text field (the library raises on
`response.text`, caught by the same `except`), `.ok (some t)` when a text
`t` is returned.  `aqi_category` only feeds the prompt sent to the
provider, so the returned value does not depend on it. -/
def get_caring_message_from_gemini (provider : Except Unit (Option String))
    (aqi_category : String) : String :=
  match provider with
  | .error _ => geminiFallback
  | .ok none => geminiFallback
  | .ok (some t) => t.trim

/-- One entry of the OpenWeatherMap `list` array: `main.aqi` plus the
`components` dict of pollutant concentrations. -/
structure OWEntry where
  aqi : ℤ
  components : List (String × ℚ)
  deriving Repr, DecidableEq

/-- Python `dict.get(key, default)` on the components dict. -/
def dictGetD (d : List (String × ℚ)) (key : String) (dflt : ℚ) : ℚ :=
  match d.find? (fun kv => kv.1 = key) with
  | some kv => kv.2
  | none => dflt

/-- An HTTP response from the weather provider: status code and body.
`body = none` models a body that is not valid JSON (`response.json()`
raises); `body = some none` models JSON without a `list` key;
`body = some (some l)` models JSON whose `list` key holds the array `l`. -/
structure OWResponse where
  status_code : ℕ
  body : Option (Option (List OWEntry))
  deriving Repr, DecidableEq

/-- Embedding of `AQIBot.get_aqi_openweather` (src/main.py lines 28-74).
The network call is external; `resp = .error ()` models `requests.get`
raising (network/transport exception).  Every exception path is caught by
the function's `try/except` and converted to `None`; the embedding is a
total function into `Option Reading`. -/
def get_aqi_openweather (resp : Except Unit OWResponse) : Option Reading :=
  match resp with
  | .error _ => none
  | .ok r =>
    if r.status_code ≠ 200 then none
    else
      match r.body with
      | none => none
      | some none => none
      | some (some []) => none
      | some (some (e :: _)) =>
        some { aqi_index := e.aqi,
               pm25 := dictGetD e.components "pm2_5" 0,
               pm10 := dictGetD e.components "pm10" 0 }

/-- Python `f"{x:.1f}"` for a nonnegative value: round to one decimal and
print with exactly one digit after the point.  (Python rounds the binary
float to nearest; all values used in the theorems below are exact at one
decimal, where every rounding mode agrees.) -/
def formatOneDecimal (q : ℚ) : String :=
  let n : ℤ := round (q * 10)
  toString (n / 10) ++ "." ++ toString (n % 10)

/-- The tweet text built in `AQIBot.post_tweet` (src/main.py lines 154-159):
header with location name and local time, status line, approximate-index
line, PM2.5 and PM10 lines at one decimal with the unit, blank line, and
the advisory prefixed with the 💡 glyph. -/
def composeTweet (locName time : String) (info : AqiInfo) (pm25 pm10 : ℚ)
    (caring : String) : String :=
  "Air Quality Index for " ++ locName ++ " at " ++ time ++ ":\n\n" ++
  "Status: " ++ info.category ++ " " ++ info.emoji ++ "\n" ++
  "Air Quality Index: ~" ++ toString info.epa_aqi ++ "\n" ++
  "PM2.5: " ++ formatOneDecimal pm25 ++ " μg/m³\n" ++
  "PM10: " ++ formatOneDecimal pm10 ++ " μg/m³\n\n" ++
  "💡 " ++ caring

/-- The publish part of `AQIBot.post_tweet` (src/main.py lines 165-209):
try the v2 client's `create_tweet`; on any exception fall back to exactly
one `update_status` call on the v1 API; return `true` on either success and
`false` when both raise.  `v2` / `v1` are the external outcomes of the two
calls (`.ok id` = posted with that id, `.error ()` = raised). -/
def publishAttempt (v2 v1 : Except Unit ℕ) : Bool :=
  match v2 with
  | .ok _ => true
  | .error _ =>
    match v1 with
    | .ok _ => true
    | .error _ => false

/-- Embedding of `AQIBot.post_tweet` (src/main.py lines 140-209): classify,
obtain the caring message, compose the tweet, then publish with the v2/v1
fallback.  `gem` is the generative-text call's outcome and `v2`/`v1` the
two publish outcomes. -/
def post_tweet (locName time : String) (gem : Except Unit (Option String))
    (v2 v1 : Except Unit ℕ) (aqi_data : Reading) : Bool :=
  let info := get_aqi_category aqi_data.aqi_index aqi_data.pm25
  let caring := get_caring_message_from_gemini gem info.category
  let _tweet := composeTweet locName time info aqi_data.pm25 aqi_data.pm10 caring
  publishAttempt v2 v1

/-- Embedding of `AQIBot.update_aqi` (src/main.py lines 211-228): fetch,
abort (return `false`) when the fetch yields nothing, otherwise post. -/
def update_aqi (fetch : Except Unit OWResponse)
    (gem : Except Unit (Option String)) (v2 v1 : Except Unit ℕ)
    (locName time : String) : Bool :=
  match get_aqi_openweather fetch with
  | some aqi_data => post_tweet locName time gem v2 v1 aqi_data
  | none => false

/-- The four Twitter secrets (`twitter_credentials` dict). -/
structure Creds where
  api_key : String
  api_secret : String
  access_token : String
  access_token_secret : String
  deriving Repr, DecidableEq

/-- One entry of `config.json`'s `locations` array.  `twitter_credentials`
is `none` when the entry has no such key (the Python fallback
`config['twitter_credentials']` then raises `KeyError`). -/
structure ConfigEntry where
  name : String
  latitude : ℚ
  longitude : ℚ
  timezone : String
  twitter_credentials : Option Creds
  deriving Repr, DecidableEq

/-- The `Location` dataclass (src/main.py lines 12-20).  The two shared API
keys are `Option String` because `os.getenv` returns `None` when unset. -/
structure Location where
  name : String
  latitude : ℚ
  longitude : ℚ
  timezone : String
  twitter_credentials : Creds
  openweather_api_key : Option String
  gemini_api_key : Option String
  deriving Repr, DecidableEq

/-- The per-location environment credential lookup of
`load_location_config` (src/main.py lines 244-256): read the four
`{PREFIX}_TWITTER_*` variables and accept them only when `all(...)` is
truthy, i.e. every one is present AND non-empty (Python's truthiness on
strings). -/
def envCreds (env : String → Option String) (pfx : String) : Option Creds :=
  match env (pfx ++ "_TWITTER_API_KEY"), env (pfx ++ "_TWITTER_API_SECRET"),
      env (pfx ++ "_TWITTER_ACCESS_TOKEN"),
      env (pfx ++ "_TWITTER_ACCESS_TOKEN_SECRET") with
  | some a, some b, some t, some u =>
    if a = "" ∨ b = "" ∨ t = "" ∨ u = "" then none
    else some ⟨a, b, t, u⟩
  | _, _, _, _ => none

/-- The body of `load_location_config`'s per-entry loop (src/main.py lines
243-270): prefer the environment credentials named by the uppercased
location name; when any is missing (or empty) fall back to the config
entry's own `twitter_credentials` (raising `KeyError`, modelled `.error`,
when the entry has none); the shared OpenWeather and Gemini keys always
come from the environment. -/
def load_location_entry (env : String → Option String) (c : ConfigEntry) :
    Except Unit Location :=
  let creds : Except Unit Creds :=
    match envCreds env c.name.toUpper with
    | some cr => .ok cr
    | none =>
      match c.twitter_credentials with
      | some cr => .ok cr
      | none => .error ()
  creds.map fun cr =>
    { name := c.name, latitude := c.latitude, longitude := c.longitude,
      timezone := c.timezone, twitter_credentials := cr,
      openweather_api_key := env "OPENWEATHER_API_KEY",
      gemini_api_key := env "GEMINI_API_KEY" }

/-- Embedding of `load_location_config` (src/main.py lines 230-272) on an
already-parsed config: build one `Location` per entry; any raised
`KeyError` propagates out of the function. -/
def load_location_config (env : String → Option String)
    (entries : List ConfigEntry) : Except Unit (List Location) :=
  entries.mapM (load_location_entry env)

/-- The external outcomes consumed by one location's run: the HTTP fetch,
the generative-text call, the v2 and v1 publish calls, and the formatted
local time. -/
structure LocOutcome where
  fetch : Except Unit OWResponse
  gem : Except Unit (Option String)
  v2 : Except Unit ℕ
  v1 : Except Unit ℕ
  time : String

/-- One iteration of the `__main__` loop (src/main.py lines 280-284):
construct the bot and run `update_aqi`. -/
def runLocation (loc : Location) (o : LocOutcome) : Bool :=
  update_aqi o.fetch o.gem o.v2 o.v1 loc.name o.time

/-- The `__main__` for-loop over the loaded locations, paired with their
external outcomes: every location is visited in order and its boolean
result collected; no iteration raises (each stage catches its own
exceptions), so no iteration can cut the loop short. -/
def mainLoop : List (Location × LocOutcome) → List Bool
  | [] => []
  | (l, o) :: rest => runLocation l o :: mainLoop rest

/-- Embedding of the `__main__` block (src/main.py lines 274-287): load the
config inside a top-level `try`; on any exception print and fall through
(the process then exits 0); otherwise run every location and exit 0.
`cfgData` is the outcome of opening/parsing `config.json` (external IO);
`oracles i` gives the i-th location's external outcomes.  Returns the
process exit code paired with the per-location results that were run. -/
def mainProgram (cfgData : Except Unit (List ConfigEntry))
    (env : String → Option String) (oracles : ℕ → LocOutcome) :
    ℕ × List Bool :=
  match cfgData.bind (load_location_config env) with
  | .error _ => (0, [])
  | .ok locs => (0, (locs.enum.map fun li => runLocation li.2 (oracles li.1)))

/-- Predicate: the string `s` occurs inside `t` as a contiguous substring. -/
def substrOf (s t : String) : Prop := ∃ a b, t = a ++ s ++ b

/-- Whether an external call outcome is a success (the call did not raise). -/
def succeeded (e : Except Unit ℕ) : Bool :=
  match e with
  | .ok _ => true
  | .error _ => false

end AQIBot

/-- Truncation toward zero is nonnegative on nonnegative input. -/
theorem truncQ_nonneg {q : ℚ} (h : 0 ≤ q) : 0 ≤ AQIBot.truncQ q := by
  unfold AQIBot.truncQ
  rw [if_pos h]
  exact Int.floor_nonneg.mpr h

/-- Truncation toward zero is monotone. -/
theorem truncQ_mono {a b : ℚ} (h : a ≤ b) :
    AQIBot.truncQ a ≤ AQIBot.truncQ b := by
  unfold AQIBot.truncQ
  by_cases ha : 0 ≤ a
  · rw [if_pos ha, if_pos (le_trans ha h)]
    exact Int.floor_le_floor h
  · rw [if_neg ha]
    by_cases hb : 0 ≤ b
    · rw [if_pos hb]
      calc ⌈a⌉ ≤ 0 := Int.ceil_le.mpr (by exact_mod_cast le_of_not_le ha)
        _ ≤ ⌊b⌋ := Int.floor_nonneg.mpr hb
    · rw [if_neg hb]
      exact Int.ceil_le_ceil h

/-- C1: for every integer ordinal index and every PM2.5 value, the classifier
`get_aqi_category` returns exactly the category, glyph and approximate index
of the fixed table stated in the spec (rounding = truncation toward zero,
capping = `min` with the band cap). -/
theorem c1_classifier_matches_spec_table (aqi_index : ℤ) (pm25 : ℚ) :
    AQIBot.get_aqi_category aqi_index pm25 =
      AQIBot.specClassifierTable aqi_index pm25 := by
  unfold AQIBot.get_aqi_category AQIBot.specClassifierTable
  rfl

/-- C2 counterexample: the claim says the approximate index always lies
within the selected category's clamp band (for Very Poor: between 200 and
300), but the code only caps from above.  At index 5 with PM2.5 = 0 the
code returns `min (200 + int((0-75)*2.8)) 300 = -10`, far below the Very
Poor band's lower boundary 200. -/
theorem c2_counterexample :
    (AQIBot.get_aqi_category 5 0).category = "Very Poor" ∧
    (AQIBot.get_aqi_category 5 0).epa_aqi = -10 ∧
    ¬ (200 ≤ (AQIBot.get_aqi_category 5 0).epa_aqi) := by
  have he : (AQIBot.get_aqi_category 5 0).epa_aqi = -10 := by
    unfold AQIBot.get_aqi_category AQIBot.truncQ
    norm_num
    rw [show ((-210 : ℚ)) = ((-210 : ℤ) : ℚ) by norm_num, Int.ceil_intCast]
    norm_num
  exact ⟨rfl, he, by rw [he]; norm_num⟩

/-- C2 amended: the approximate index never exceeds its band's cap
(unconditionally), and it is at least the band's lower boundary whenever
the PM2.5 value is at least the branch's lower breakpoint (0 for Good, 10
for Fair, 25 for Moderate, 50 for Poor, 75 for Very Poor); below the
breakpoint the code can and does fall below the band. -/
theorem c2_amended_epa_within_band (i : ℤ) (p : ℚ) :
    ((AQIBot.get_aqi_category i p).epa_aqi ≤
      if i = 1 then 50 else if i = 2 then 100 else if i = 3 then 150
      else if i = 4 then 200 else 300) ∧
    (i = 1 → 0 ≤ p → 0 ≤ (AQIBot.get_aqi_category i p).epa_aqi) ∧
    (i = 2 → 10 ≤ p → 50 ≤ (AQIBot.get_aqi_category i p).epa_aqi) ∧
    (i = 3 → 25 ≤ p → 100 ≤ (AQIBot.get_aqi_category i p).epa_aqi) ∧
    (i = 4 → 50 ≤ p → 150 ≤ (AQIBot.get_aqi_category i p).epa_aqi) ∧
    (i ≠ 1 → i ≠ 2 → i ≠ 3 → i ≠ 4 → 75 ≤ p →
      200 ≤ (AQIBot.get_aqi_category i p).epa_aqi) := by
  unfold AQIBot.get_aqi_category
  refine ⟨?_, ?_, ?_, ?_, ?_, ?_⟩
  · split_ifs <;> simp
  · intro h1 hp
    rw [if_pos h1]
    simp only
    exact le_min (truncQ_nonneg (by positivity)) (by norm_num)
  · intro h2 hp
    rw [if_neg (by omega : ¬ i = 1), if_pos h2]
    simp only
    refine le_min ?_ (by norm_num)
    have := truncQ_nonneg (q := (p - 10) * 4.8)
      (mul_nonneg (by linarith) (by norm_num))
    omega
  · intro h3 hp
    rw [if_neg (by omega : ¬ i = 1), if_neg (by omega : ¬ i = 2), if_pos h3]
    simp only
    refine le_min ?_ (by norm_num)
    have := truncQ_nonneg (q := (p - 25) * 1.8)
      (mul_nonneg (by linarith) (by norm_num))
    omega
  · intro h4 hp
    rw [if_neg (by omega : ¬ i = 1), if_neg (by omega : ¬ i = 2),
      if_neg (by omega : ¬ i = 3), if_pos h4]
    simp only
    refine le_min ?_ (by norm_num)
    have := truncQ_nonneg (q := (p - 50) * 1.8)
      (mul_nonneg (by linarith) (by norm_num))
    omega
  · intro h1 h2 h3 h4 hp
    rw [if_neg h1, if_neg h2, if_neg h3, if_neg h4]
    simp only
    refine le_min ?_ (by norm_num)
    have := truncQ_nonneg (q := (p - 75) * 2.8)
      (mul_nonneg (by linarith) (by norm_num))
    omega

/-- Witness for C2's amended theorem at index 2, PM2.5 = 15: the Fair
branch yields a value between 50 and 100. -/
theorem c2_amended_witness :
    50 ≤ (AQIBot.get_aqi_category 2 15).epa_aqi ∧
    (AQIBot.get_aqi_category 2 15).epa_aqi ≤ 100 := by
  refine ⟨(c2_amended_epa_within_band 2 15).2.2.1 rfl (by norm_num), ?_⟩
  have h := (c2_amended_epa_within_band 2 15).1
  norm_num at h
  exact h

/-- C10: for every fixed ordinal index, the approximate index is monotone
non-decreasing in the PM2.5 input. -/
theorem c10_epa_monotone (i : ℤ) (p₁ p₂ : ℚ) (h : p₁ ≤ p₂) :
    (AQIBot.get_aqi_category i p₁).epa_aqi ≤
      (AQIBot.get_aqi_category i p₂).epa_aqi := by
  unfold AQIBot.get_aqi_category
  split_ifs <;> simp only <;>
    refine min_le_min ?_ le_rfl
  · exact truncQ_mono (mul_le_mul_of_nonneg_right h (by norm_num))
  all_goals
    exact add_le_add_left
      (truncQ_mono (mul_le_mul_of_nonneg_right (sub_le_sub_right h _)
        (by norm_num))) _

/-- Witness for C10 at index 3, PM2.5 values 10 ≤ 40. -/
theorem c10_witness :
    (AQIBot.get_aqi_category 3 10).epa_aqi ≤
      (AQIBot.get_aqi_category 3 40).epa_aqi :=
  c10_epa_monotone 3 10 40 (by norm_num)

/-- Truncation toward zero fixes integers. -/
theorem truncQ_intCast (n : ℤ) : AQIBot.truncQ ((n : ℚ)) = n := by
  unfold AQIBot.truncQ
  split_ifs
  · exact Int.floor_intCast n
  · exact Int.ceil_intCast n

/-- C3 counterexample: with the environment entirely absent
(`fun _ => none`) and a config file supplying one location with its own
credentials, the run does NOT halt with a non-zero exit before processing:
it processes the location (the fetch then fails) and exits 0, contradicting
the claim that a non-zero exit occurs exactly when required environment
configuration is entirely absent.  The top-level `try/except` of
`__main__` prints any exception and always falls through to a 0 exit. -/
theorem c3_counterexample :
    AQIBot.mainProgram
      (.ok [{ name := "Delhi", latitude := 28, longitude := 77,
              timezone := "Asia/Kolkata",
              twitter_credentials :=
                some ⟨"cfg_key", "cfg_secret", "cfg_token", "cfg_tsecret"⟩ }])
      (fun _ => none)
      (fun _ => ⟨.error (), .error (), .error (), .error (), "10:00 AM"⟩)
      = (0, [false]) := rfl

/-- C3 amended: the process exits 0 in every case — on normal completion
(even with per-location failures), and also when configuration is missing
or malformed, because the top-level `try/except` swallows every exception;
there is no non-zero exit path and no eager environment check.  When the
config loads successfully every loaded location is processed. -/
theorem c3_amended_exit_always_zero
    (cfgData : Except Unit (List AQIBot.ConfigEntry))
    (env : String → Option String) (oracles : ℕ → AQIBot.LocOutcome) :
    (AQIBot.mainProgram cfgData env oracles).1 = 0 ∧
    (∀ locs, cfgData.bind (AQIBot.load_location_config env) = .ok locs →
      (AQIBot.mainProgram cfgData env oracles).2.length = locs.length) := by
  unfold AQIBot.mainProgram
  constructor
  · cases cfgData.bind (AQIBot.load_location_config env) <;> rfl
  · intro locs h
    rw [h]
    simp [List.enum_length]

/-- Witness for C3's amended theorem on an empty config and empty
environment. -/
theorem c3_amended_witness :
    (AQIBot.mainProgram (.ok []) (fun _ => none)
      (fun _ => ⟨.error (), .error (), .error (), .error (), ""⟩)).1 = 0 ∧
    (AQIBot.mainProgram (.ok []) (fun _ => none)
      (fun _ => ⟨.error (), .error (), .error (), .error (), ""⟩)).2.length = 0 :=
  ⟨(c3_amended_exit_always_zero (.ok []) (fun _ => none)
      (fun _ => ⟨.error (), .error (), .error (), .error (), ""⟩)).1,
   (c3_amended_exit_always_zero (.ok []) (fun _ => none)
      (fun _ => ⟨.error (), .error (), .error (), .error (), ""⟩)).2 [] rfl⟩

/-- C4 counterexample: the claim says the fallback is selected by exact
category match from a fixed table of five entries plus a generic default.
In the code there is no such table: when the provider raises, every one of
the five categories receives the very same single generic string, identical
to what a non-category input receives — there is no category-keyed
selection. -/
theorem c4_counterexample :
    AQIBot.get_caring_message_from_gemini (.error ()) "Good" =
      AQIBot.geminiFallback ∧
    AQIBot.get_caring_message_from_gemini (.error ()) "Fair" =
      AQIBot.geminiFallback ∧
    AQIBot.get_caring_message_from_gemini (.error ()) "Moderate" =
      AQIBot.geminiFallback ∧
    AQIBot.get_caring_message_from_gemini (.error ()) "Poor" =
      AQIBot.geminiFallback ∧
    AQIBot.get_caring_message_from_gemini (.error ()) "Very Poor" =
      AQIBot.geminiFallback ∧
    AQIBot.get_caring_message_from_gemini (.error ()) "NotACategory" =
      AQIBot.geminiFallback :=
  ⟨rfl, rfl, rfl, rfl, rfl, rfl⟩

/-- C4 amended: for every category, when the provider call raises or the
response lacks the text field, the advisory generator never raises and
returns the single static generic fallback string (the same one for every
category); on a successful response it returns the text stripped. -/
theorem c4_amended_single_fallback (cat : String) :
    AQIBot.get_caring_message_from_gemini (.error ()) cat =
      AQIBot.geminiFallback ∧
    AQIBot.get_caring_message_from_gemini (.ok none) cat =
      AQIBot.geminiFallback ∧
    ∀ t, AQIBot.get_caring_message_from_gemini (.ok (some t)) cat = t.trim :=
  ⟨rfl, rfl, fun _ => rfl⟩

/-- C5: the orchestration loop processes every configured location in
order, and any one location's result (computed solely from its own inputs)
never prevents the others from being processed: splitting the location
list anywhere shows each element processed independently.  Concretely,
location B is processed (and publishes, `true`) even though location A's
fetch raised (`false`). -/
theorem c5_per_location_isolation :
    (∀ pre x post,
      AQIBot.mainLoop (pre ++ x :: post) =
        AQIBot.mainLoop pre ++
          AQIBot.runLocation x.1 x.2 :: AQIBot.mainLoop post) ∧
    AQIBot.mainLoop
      [({ name := "A", latitude := 1, longitude := 2, timezone := "UTC",
          twitter_credentials := ⟨"ka", "sa", "ta", "ua"⟩,
          openweather_api_key := some "ow", gemini_api_key := some "gm" },
        ⟨.error (), .ok (some "tip"), .ok 1, .error (), "9:00 AM"⟩),
       ({ name := "B", latitude := 3, longitude := 4, timezone := "UTC",
          twitter_credentials := ⟨"kb", "sb", "tb", "ub"⟩,
          openweather_api_key := some "ow", gemini_api_key := some "gm" },
        ⟨.ok ⟨200, some (some [⟨2, [("pm2_5", 15), ("pm10", 20)]⟩])⟩,
         .ok (some "tip"), .ok 2, .error (), "9:00 AM"⟩)] = [false, true] := by
  constructor
  · intro pre x post
    induction pre with
    | nil => rfl
    | cons h t ih =>
      exact congrArg (List.cons (AQIBot.runLocation h.1 h.2)) ih
  · rfl

/-- C6: the publisher first attempts the v2 interface; when it raises it
makes exactly one fallback attempt via v1; it returns `true` iff either
attempt succeeded and `false` iff both raised; it is a total function, so
no exception from the attempts reaches the caller. -/
theorem c6_publish_fallback (v2 v1 : Except Unit ℕ) :
    (AQIBot.publishAttempt v2 v1 = true ↔
      AQIBot.succeeded v2 = true ∨ AQIBot.succeeded v1 = true) ∧
    (AQIBot.publishAttempt v2 v1 = false ↔
      AQIBot.succeeded v2 = false ∧ AQIBot.succeeded v1 = false) ∧
    (AQIBot.succeeded v2 = true → AQIBot.publishAttempt v2 v1 = true) ∧
    (AQIBot.succeeded v2 = false →
      AQIBot.publishAttempt v2 v1 = AQIBot.succeeded v1) := by
  cases v2 <;> cases v1 <;>
    simp [AQIBot.publishAttempt, AQIBot.succeeded]

/-- Witness for C6: a failing v2 call followed by a succeeding v1 call
returns the fallback's result (success), and a succeeding v2 call returns
`true` without needing v1. -/
theorem c6_publish_fallback_witness :
    AQIBot.publishAttempt (.error ()) (.ok 7) = AQIBot.succeeded (.ok 7) ∧
    AQIBot.publishAttempt (.ok 3) (.error ()) = true :=
  ⟨(c6_publish_fallback (.error ()) (.ok 7)).2.2.2 rfl,
   (c6_publish_fallback (.ok 3) (.error ())).2.2.1 rfl⟩

/-- C7: the fetcher returns no reading (`none`), never an exception, for a
transport exception, a non-200 status, malformed JSON, a missing `list`
key, or an empty `list`; and it returns a reading exactly when the status
is 200 and the `list` is non-empty, extracting the ordinal index and the
`pm2_5`/`pm10` components; a component absent from the dict defaults to
the supplied default 0. -/
theorem c7_fetcher_characterization (resp : Except Unit AQIBot.OWResponse) :
    (∀ u, resp = .error u → AQIBot.get_aqi_openweather resp = none) ∧
    (∀ r, resp = .ok r → r.status_code ≠ 200 →
      AQIBot.get_aqi_openweather resp = none) ∧
    (∀ r, resp = .ok r → r.body = none →
      AQIBot.get_aqi_openweather resp = none) ∧
    (∀ r, resp = .ok r → r.body = some none →
      AQIBot.get_aqi_openweather resp = none) ∧
    (∀ r, resp = .ok r → r.body = some (some []) →
      AQIBot.get_aqi_openweather resp = none) ∧
    (∀ red, AQIBot.get_aqi_openweather resp = some red ↔
      ∃ r e rest, resp = .ok r ∧ r.status_code = 200 ∧
        r.body = some (some (e :: rest)) ∧
        red = ⟨e.aqi, AQIBot.dictGetD e.components "pm2_5" 0,
               AQIBot.dictGetD e.components "pm10" 0⟩) ∧
    (∀ d key dflt, (∀ kv ∈ d, kv.1 ≠ key) →
      AQIBot.dictGetD d key dflt = dflt) := by
  refine ⟨?_, ?_, ?_, ?_, ?_, ?_, ?_⟩
  · rintro u rfl
    rfl
  · rintro r rfl h
    simp [AQIBot.get_aqi_openweather, h]
  · rintro r rfl h
    simp [AQIBot.get_aqi_openweather, h]
  · rintro r rfl h
    simp [AQIBot.get_aqi_openweather, h]
  · rintro r rfl h
    simp [AQIBot.get_aqi_openweather, h]
  · intro red
    constructor
    · intro h
      rcases resp with u | ⟨sc, body⟩
      · exact absurd h (by simp [AQIBot.get_aqi_openweather])
      · by_cases hsc : sc = 200
        · subst hsc
          rcases body with _ | body2
          · exact absurd h (by simp [AQIBot.get_aqi_openweather])
          rcases body2 with _ | l
          · exact absurd h (by simp [AQIBot.get_aqi_openweather])
          rcases l with _ | ⟨e, rest⟩
          · exact absurd h (by simp [AQIBot.get_aqi_openweather])
          refine ⟨⟨200, some (some (e :: rest))⟩, e, rest, rfl, rfl, rfl, ?_⟩
          simp [AQIBot.get_aqi_openweather] at h
          exact h.symm
        · exact absurd h (by simp [AQIBot.get_aqi_openweather, hsc])
    · rintro ⟨r, e, rest, rfl, hsc, hb, rfl⟩
      simp [AQIBot.get_aqi_openweather, hsc, hb]
  · intro d key dflt h
    unfold AQIBot.dictGetD
    rw [List.find?_eq_none.mpr]
    intro kv hkv
    simpa using h kv hkv

/-- Witness for C7: a raising call, a 404 response, and a well-formed 200
response with one entry whose components carry only `pm2_5` (so `pm10`
defaults to 0). -/
theorem c7_fetcher_witness :
    AQIBot.get_aqi_openweather (.error ()) = none ∧
    AQIBot.get_aqi_openweather (.ok ⟨404, some (some [⟨2, []⟩])⟩) = none ∧
    AQIBot.get_aqi_openweather
      (.ok ⟨200, some (some [⟨2, [("pm2_5", 15)]⟩])⟩) =
      some ⟨2, 15, 0⟩ := by
  refine ⟨(c7_fetcher_characterization (.error ())).1 () rfl,
    (c7_fetcher_characterization _).2.1 _ rfl (by norm_num), ?_⟩
  exact ((c7_fetcher_characterization _).2.2.2.2.2.1 _).mpr
    ⟨_, _, _, rfl, rfl, rfl, by simp [AQIBot.dictGetD]⟩

/-- C8 counterexample: the claim says the per-location credentials are
supplied by the config entry itself, with environment secrets only as a
fallback.  The code has the opposite priority: when both the environment
(here: every variable set to `"env_key"`) and the config entry supply
credentials, the environment values win. -/
theorem c8_counterexample :
    (AQIBot.load_location_entry (fun _ => some "env_key")
      { name := "Delhi", latitude := 28, longitude := 77,
        timezone := "Asia/Kolkata",
        twitter_credentials :=
          some ⟨"cfg_key", "cfg_secret", "cfg_token", "cfg_tsecret"⟩ }).map
      (fun loc => loc.twitter_credentials.api_key) = .ok "env_key" ∧
    "env_key" ≠ "cfg_key" :=
  ⟨rfl, by decide⟩

/-- C8 amended: per-location publishing credentials are sourced from the
environment variables named with the uppercased location name as prefix,
falling back to the config entry's own credentials when any environment
variable is missing or empty (and raising `KeyError` when neither side
supplies them); the shared weather and text-generation keys always come
from the process environment. -/
theorem c8_amended_env_over_config (env : String → Option String)
    (c : AQIBot.ConfigEntry) :
    (∀ cr, AQIBot.envCreds env c.name.toUpper = some cr →
      AQIBot.load_location_entry env c = .ok
        { name := c.name, latitude := c.latitude, longitude := c.longitude,
          timezone := c.timezone, twitter_credentials := cr,
          openweather_api_key := env "OPENWEATHER_API_KEY",
          gemini_api_key := env "GEMINI_API_KEY" }) ∧
    (AQIBot.envCreds env c.name.toUpper = none →
      ∀ cr, c.twitter_credentials = some cr →
        AQIBot.load_location_entry env c = .ok
          { name := c.name, latitude := c.latitude, longitude := c.longitude,
            timezone := c.timezone, twitter_credentials := cr,
            openweather_api_key := env "OPENWEATHER_API_KEY",
            gemini_api_key := env "GEMINI_API_KEY" }) ∧
    (AQIBot.envCreds env c.name.toUpper = none →
      c.twitter_credentials = none →
      AQIBot.load_location_entry env c = .error ()) := by
  unfold AQIBot.load_location_entry
  refine ⟨?_, ?_, ?_⟩
  · intro cr h
    rw [h]
    rfl
  · intro h cr h2
    rw [h, h2]
    rfl
  · intro h h2
    rw [h, h2]
    rfl

/-- Witness for C8's amended theorem: with an empty environment the config
entry's credentials are used and the shared keys are absent. -/
theorem c8_amended_witness :
    AQIBot.load_location_entry (fun _ => none)
      { name := "Delhi", latitude := 28, longitude := 77,
        timezone := "Asia/Kolkata",
        twitter_credentials :=
          some ⟨"cfg_key", "cfg_secret", "cfg_token", "cfg_tsecret"⟩ } =
      .ok { name := "Delhi", latitude := 28, longitude := 77,
            timezone := "Asia/Kolkata",
            twitter_credentials :=
              ⟨"cfg_key", "cfg_secret", "cfg_token", "cfg_tsecret"⟩,
            openweather_api_key := none, gemini_api_key := none } :=
  (c8_amended_env_over_config (fun _ => none)
    { name := "Delhi", latitude := 28, longitude := 77,
      timezone := "Asia/Kolkata",
      twitter_credentials :=
        some ⟨"cfg_key", "cfg_secret", "cfg_token", "cfg_tsecret"⟩ }).2.1
    rfl _ rfl

/-- Concrete classification used by the spec's end-to-end example. -/
theorem get_aqi_category_2_15 :
    AQIBot.get_aqi_category 2 15 = ⟨"Fair", "🟢", 74⟩ := by
  unfold AQIBot.get_aqi_category
  rw [if_neg (by norm_num), if_pos rfl]
  rw [show (((15:ℚ) - 10) * 4.8) = ((24:ℤ):ℚ) by norm_num, truncQ_intCast]
  norm_num

/-- The value 15.0 rendered at one decimal. -/
theorem formatOneDecimal_15 : AQIBot.formatOneDecimal 15 = "15.0" := by
  simp only [AQIBot.formatOneDecimal]
  rw [show ((15:ℚ) * 10) = ((150:ℤ):ℚ) by norm_num, round_intCast]
  rfl

/-- The value 20.0 rendered at one decimal. -/
theorem formatOneDecimal_20 : AQIBot.formatOneDecimal 20 = "20.0" := by
  simp only [AQIBot.formatOneDecimal]
  rw [show ((20:ℚ) * 10) = ((200:ℤ):ℚ) by norm_num, round_intCast]
  rfl

/-- C9: the composed message carries, in fixed order, the location name,
the formatted time, the category, the glyph, the approximate index, the
PM2.5 and PM10 values at one decimal, and the advisory text; the advisory
is separated by a blank line and prefixed with the 💡 marker (the gap
before it is exactly `" μg/m³\n\n💡 "`).  For the spec's end-to-end
example (index 2, pm25 = 15.0, pm10 = 20.0) the category is "Fair", the
approximate index is 74, and the message contains the exact substrings
`"PM2.5: 15.0 μg/m³"` and `"PM10: 20.0 μg/m³"`. -/
theorem c9_composer_layout :
    (∀ (locName time caring : String) (info : AQIBot.AqiInfo) (pm25 pm10 : ℚ),
      ∃ g1 g2 g3 g4 g5 g6 g7 g8,
        AQIBot.composeTweet locName time info pm25 pm10 caring =
          g1 ++ locName ++ g2 ++ time ++ g3 ++ info.category ++ g4 ++
            info.emoji ++ g5 ++ toString info.epa_aqi ++ g6 ++
            AQIBot.formatOneDecimal pm25 ++ g7 ++
            AQIBot.formatOneDecimal pm10 ++ g8 ++ caring ∧
        g8 = " μg/m³\n\n💡 ") ∧
    (AQIBot.get_aqi_category 2 15).category = "Fair" ∧
    (AQIBot.get_aqi_category 2 15).epa_aqi = 74 ∧
    AQIBot.substrOf "PM2.5: 15.0 μg/m³"
      (AQIBot.composeTweet "Delhi" "9:00 AM" (AQIBot.get_aqi_category 2 15)
        15 20 "tip") ∧
    AQIBot.substrOf "PM10: 20.0 μg/m³"
      (AQIBot.composeTweet "Delhi" "9:00 AM" (AQIBot.get_aqi_category 2 15)
        15 20 "tip") := by
  have hS : AQIBot.composeTweet "Delhi" "9:00 AM"
      (AQIBot.get_aqi_category 2 15) 15 20 "tip" =
      "Air Quality Index for Delhi at 9:00 AM:\n\nStatus: Fair 🟢\nAir Quality Index: ~74\nPM2.5: 15.0 μg/m³\nPM10: 20.0 μg/m³\n\n💡 tip" := by
    rw [get_aqi_category_2_15]
    unfold AQIBot.composeTweet
    rw [formatOneDecimal_15, formatOneDecimal_20]
    rfl
  refine ⟨?_, by rw [get_aqi_category_2_15], by rw [get_aqi_category_2_15],
    ?_, ?_⟩
  · intro locName time caring info pm25 pm10
    refine ⟨"Air Quality Index for ", " at ", ":\n\n" ++ "Status: ", " ",
      "\n" ++ "Air Quality Index: ~", "\n" ++ "PM2.5: ",
      " μg/m³\n" ++ "PM10: ", " μg/m³\n\n" ++ "💡 ", ?_, rfl⟩
    simp only [AQIBot.composeTweet, String.append_assoc]
  · exact ⟨"Air Quality Index for Delhi at 9:00 AM:\n\nStatus: Fair 🟢\nAir Quality Index: ~74\n",
      "\nPM10: 20.0 μg/m³\n\n💡 tip", by rw [hS]; rfl⟩
  · exact ⟨"Air Quality Index for Delhi at 9:00 AM:\n\nStatus: Fair 🟢\nAir Quality Index: ~74\nPM2.5: 15.0 μg/m³\n",
      "\n\n💡 tip", by rw [hS]; rfl⟩
